import Mathlib

/-!
Shallow embedding of the Expense_Tracker_agent backend
(`app/agents/agent.py`, `app/controllers/expense_controller.py`,
`app/routers/agent_router.py`) and proofs about the claims of the spec.

Conventions of the embedding:
* Python `datetime` values are modelled as `Int` timestamps (only their order
  matters to the code under study); `dateparser.parse` is an external library
  and is modelled as an abstract parameter `parse : String → Option Int`
  (`none` = parse failure).
* Monetary amounts (`float` in Python) are modelled as `Int`: every claim
  exercises only whole-dollar literals, and only equality and addition of
  amounts matter to the code paths under study.
* A Python object attribute that can hold `None` is an `Option`; the Expense
  table columns `amount`, `description`, `date` are declared `NOT NULL` in the
  SQLModel schema (their annotations are not `Optional`), which is enforced at
  `session.commit()` — modelled by `rowValid` below.
* The `contextvars` slot `current_user_id` is passed to each tool as an
  explicit `ctx : Option Nat` argument (the value that the call
  `current_user_id.get()` observes inside the tool).
* Python string truthiness (`if category:` treats `""` like `None`) is
  modelled by `pyTruthy`.
* Tool results, which Python renders as strings / dicts, are modelled as
  inductive results carrying the same decision and the same data; each
  constructor is annotated with the string/dict the source returns.
* `agent.py` never imports `HTTPException`, yet `tool_update_expenses` and
  `tool_delete_expenses` each contain an `except HTTPException` clause.  In
  Python, when the controller raises `HTTPException`, evaluating that clause
  raises `NameError` and the whole `try` statement aborts (the later
  `except Exception` clause is not consulted), so the `NameError` escapes the
  tool.  This is modelled by `PyOutcome.raised (PyExc.nameError ...)`.
-/

namespace ExpenseAgent

/-- Lower-cased character list of a string (case-insensitive comparisons). -/
def lowerStr (s : String) : List Char := s.toList.map Char.toLower

/-- Does the second list occur at the head of the first one. -/
def listStartsWith : List Char → List Char → Bool
  | _, [] => true
  | [], _ :: _ => false
  | a :: as, b :: bs => a == b && listStartsWith as bs

/-- Does the second list occur somewhere inside the first one. -/
def listHasSub : List Char → List Char → Bool
  | [], pat => pat.isEmpty
  | h :: t, pat => listStartsWith (h :: t) pat || listHasSub t pat

/-- Semantics of the SQL ILIKE filter the source builds — the pattern is
`pat` wrapped between two percent signs, and the categories the repository
uses contain no SQL wildcard characters: case-insensitive substring. -/
def containsCI (hay pat : String) : Bool := listHasSub (lowerStr hay) (lowerStr pat)

/-- Python string truthiness: `if s:` treats `None` and `""` alike. -/
def pyTruthy (s : Option String) : Option String :=
  match s with
  | some s => if s.isEmpty then none else some s
  | none => none

/-- One row of the `expense` table, as the Python object holds it
(`app/models/expense.py`).  `amount`, `description`, `date` are `Option`
because a Python attribute can be assigned `None` even though the
corresponding columns are `NOT NULL` (see `rowValid`). -/
structure Expense where
  id : Nat
  amount : Option Int
  description : Option String
  category : String
  date : Option Int
  user_id : Nat
deriving DecidableEq, Repr

/-- The store: expense rows (in rowid order) and the ids of existing users. -/
structure DB where
  expenses : List Expense
  users : List Nat
deriving DecidableEq, Repr

/-- The `NOT NULL` column constraints of the `expense` table
(`amount : float`, `description : str`, `date : datetime` are not
`Optional` in the SQLModel class), checked by the database at commit. -/
def rowValid (e : Expense) : Bool :=
  e.amount.isSome && e.description.isSome && e.date.isSome

/-- Result of `tool_get_expenses` (the source returns one plain-text string;
each constructor records which string is produced and with what data). -/
inductive GetResult
  /-- The string "Error: User ID is missing.". -/
  | missingUser
  /-- The string "Error: Unable to parse the start date ...". -/
  | startParseError (s : String)
  /-- The string "Error: Unable to parse the end date ...". -/
  | endParseError (s : String)
  /-- The string "Error: Start date cannot be after end date.". -/
  | startAfterEnd
  /-- The string "Error: User not found.". -/
  | userNotFound
  /-- The string "Error retrieving expenses: ..." (the generic `except` branch; reached
  e.g. when `sum` meets a `None` amount). -/
  | runtimeError
  /-- The listing string with one line per expense and `Total: $...`. -/
  | listing (exps : List Expense) (total : Int)
  /-- The string "No expenses found with the specified criteria.". -/
  | noResults
deriving DecidableEq, Repr

/-- The row filter built by `tool_get_expenses` (agent.py lines 126-150):
owner scoping plus the optional category / description / date filters.
A SQL comparison against a NULL `date` or `description` is not satisfied. -/
def queryKeep (uid : Nat) (category dk : Option String) (ps pe : Option Int)
    (e : Expense) : Bool :=
  e.user_id == uid
  && (match category with
      | none => true
      | some c => containsCI e.category c)
  && (match dk with
      | none => true
      | some k =>
        match e.description with
        | none => false
        | some d => containsCI d k)
  && (match ps, pe with
      | some a, some b =>
        match e.date with
        | some d => decide (a ≤ d) && decide (d ≤ b)
        | none => false
      | some a, none =>
        match e.date with
        | some d => decide (a ≤ d)
        | none => false
      | none, some b =>
        match e.date with
        | some d => decide (d ≤ b)
        | none => false
      | none, none => true)

/-- Embedding of `tool_get_expenses` (agent.py lines 73-176). -/
def tool_get_expenses (ctx : Option Nat) (parse : String → Option Int)
    (category start_date end_date description_keyword : Option String)
    (db : DB) : GetResult :=
  match ctx with
  | none => .missingUser
  | some uid =>
    if uid == 0 then .missingUser
    else
      let sd := pyTruthy start_date
      let ed := pyTruthy end_date
      let ps := sd.bind parse
      let pe := ed.bind parse
      if sd.isSome && ps.isNone then .startParseError (sd.getD "")
      else if ed.isSome && pe.isNone then .endParseError (ed.getD "")
      else if (match ps, pe with
               | some a, some b => decide (b < a)
               | _, _ => false) then .startAfterEnd
      else if !(db.users.contains uid) then .userNotFound
      else
        let exps := db.expenses.filter
          (queryKeep uid (pyTruthy category) (pyTruthy description_keyword) ps pe)
        if exps.isEmpty then .noResults
        else
          match exps.mapM Expense.amount with
          | some amts => .listing exps amts.sum
          | none => .runtimeError

/-- A raised `fastapi.HTTPException` (status code and detail). -/
structure HTTPError where
  code : Nat
  detail : String
deriving DecidableEq, Repr

/-- The dictionary produced by `expense_update.dict(exclude_unset=True)`:
outer `some` means the key is present (the field was explicitly passed to the
`ExpenseUpdate` constructor — note that explicitly passing `None` counts as
set in pydantic), the inner value is the (possibly `None`) new value.
`category` carries a plain string because the agent layer always passes the
selector string for it. -/
structure UpdatePayload where
  description : Option (Option String)
  amount : Option (Option Int)
  category : Option String
  date : Option (Option Int)
deriving DecidableEq, Repr

/-- Embedding of the write-back loop `for key, value in
expense_data.items(): setattr(expense, key, value)`
(expense_controller.py lines 91-93). -/
def applyUpdate (p : UpdatePayload) (e : Expense) : Expense :=
  { e with
    description := p.description.getD e.description
    amount := p.amount.getD e.amount
    category := (p.category.map id).getD e.category
    date := p.date.getD e.date }

/-- The controllers select rows by exact, case-sensitive category equality
plus owner scoping: `and_(Expense.category == category,
Expense.user_id == current_user.id)`. -/
def selByCategory (category : String) (uid : Nat) (e : Expense) : Bool :=
  e.category == category && e.user_id == uid

/-- Embedding of `update_expenses_by_category`
(expense_controller.py lines 66-113): 404 when no row matched; otherwise the
present payload keys are written to each matched row; a commit that violates
a `NOT NULL` column raises, is rolled back and re-raised as a 500. -/
def update_expenses_by_category (db : DB) (category : String)
    (p : UpdatePayload) (uid : Nat) : Except HTTPError (List Expense) × DB :=
  let matched := db.expenses.filter (selByCategory category uid)
  if matched.isEmpty then
    (.error ⟨404, "No expenses found in category " ++ category ++ "."⟩, db)
  else
    let updated := matched.map (applyUpdate p)
    if updated.all rowValid then
      (.ok updated,
       ⟨db.expenses.map
          (fun e => if selByCategory category uid e then applyUpdate p e else e),
        db.users⟩)
    else
      (.error ⟨500, "Failed to update expenses by category " ++ category⟩, db)

/-- Embedding of `delete_expenses_by_category`
(expense_controller.py lines 116-155): 404 when no row matched; otherwise all
matched rows are deleted. -/
def delete_expenses_by_category (db : DB) (category : String) (uid : Nat) :
    Except HTTPError String × DB :=
  let matched := db.expenses.filter (selByCategory category uid)
  if matched.isEmpty then
    (.error ⟨404, "No expenses found in category " ++ category ++ "."⟩, db)
  else
    (.ok ("Deleted " ++ toString matched.length ++ " expenses in category "
          ++ category ++ "."),
     ⟨db.expenses.filter (fun e => !selByCategory category uid e), db.users⟩)

/-- An exception escaping a Python function. -/
inductive PyExc
  /-- evaluating an `except` clause met an undefined name -/
  | nameError (missing : String)
deriving DecidableEq, Repr

/-- Outcome of calling a Python function: a returned value or a raised
exception. -/
inductive PyOutcome (α : Type)
  | ret (v : α)
  | raised (e : PyExc)
deriving DecidableEq, Repr

/-- Result of `tool_create_expenses` (a `{"status": ...}` dict). -/
inductive CreateResult
  /-- The dict `{"status": "error", "message": "User ID is missing."}`. -/
  | missingUser
  /-- The dict `{"status": "error", "message": str(e)}` — pydantic rejects
  `ExpenseCreate(description=None, ...)` since `ExpenseBase.description`
  is a required `str`; the `ValidationError` is caught by the generic
  `except` branch. -/
  | validationError
  /-- The dict `{"status": "success", ..., "data": ...}`. -/
  | ok (e : Expense)
deriving DecidableEq, Repr

/-- Autoincrement id for a freshly inserted row. -/
def nextId (db : DB) : Nat :=
  db.expenses.foldr (fun e m => max e.id m) 0 + 1

/-- Embedding of `tool_create_expenses` (agent.py lines 179-225): stamps the
current timestamp `now`, persists scoped to the caller (no user-existence
check is performed by this tool, and SQLite does not enforce the foreign key
by default). -/
def tool_create_expenses (ctx : Option Nat) (now : Int) (amount : Int)
    (category : String) (description : Option String) (db : DB) :
    CreateResult × DB :=
  match ctx with
  | none => (.missingUser, db)
  | some uid =>
    if uid == 0 then (.missingUser, db)
    else
      match description with
      | none => (.validationError, db)
      | some d =>
        let e : Expense := ⟨nextId db, some amount, some d, category, some now, uid⟩
        (.ok e, ⟨db.expenses ++ [e], db.users⟩)

/-- Result of `tool_update_expenses` (a `{"status": ...}` dict), when the
call returns at all. -/
inductive UpdResult
  /-- The dict `{"status": "error", "message": "User ID is missing."}`. -/
  | missingUser
  /-- The dict `{"status": "error", "message": "Unable to parse the date ..."}`. -/
  | dateParseError (s : String)
  /-- The dict `{"status": "error", "message": "User not found."}`. -/
  | userNotFound
  /-- The dict `{"status": "success", ..., "data": [...]}`. -/
  | ok (exps : List Expense)
deriving DecidableEq, Repr

/-- Embedding of `tool_update_expenses` (agent.py lines 228-293).  The
`ExpenseUpdate` constructed at lines 265-270 receives all four keyword
arguments explicitly, so all four fields count as set and
`dict(exclude_unset=True)` keeps every key, `None` values included.  When
the controller raises `HTTPError`, the `except HTTPException` clause
references a name `agent.py` never imports, so a `NameError` escapes. -/
def tool_update_expenses (ctx : Option Nat) (parse : String → Option Int)
    (category : String) (description : Option String) (amount : Option Int)
    (date : Option String) (db : DB) : PyOutcome UpdResult × DB :=
  match ctx with
  | none => (.ret .missingUser, db)
  | some uid =>
    if uid == 0 then (.ret .missingUser, db)
    else
      let run := fun (formatted_date : Option Int) =>
        let p : UpdatePayload :=
          ⟨some description, some amount, some category, some formatted_date⟩
        if !(db.users.contains uid) then (PyOutcome.ret UpdResult.userNotFound, db)
        else
          match update_expenses_by_category db category p uid with
          | (.ok exps, db2) => (.ret (.ok exps), db2)
          | (.error _, db2) => (.raised (.nameError "HTTPException"), db2)
      match pyTruthy date with
      | none => run none
      | some s =>
        match parse s with
        | none => (.ret (.dateParseError s), db)
        | some pd => run (some pd)

/-- Result of `tool_delete_expenses` (a `{"status": ...}` dict), when the
call returns at all. -/
inductive DelResult
  /-- The dict `{"status": "error", "message": "User ID is missing."}`. -/
  | missingUser
  /-- The dict `{"status": "error", "message": "User not found."}`. -/
  | userNotFound
  /-- The dict `{"status": "success", "message": "Deleted ..."}`. -/
  | ok (msg : String)
deriving DecidableEq, Repr

/-- Embedding of `tool_delete_expenses` (agent.py lines 296-333).  As in
`tool_update_expenses`, a controller `HTTPError` hits the unresolved
`except HTTPException` name and a `NameError` escapes. -/
def tool_delete_expenses (ctx : Option Nat) (category : String) (db : DB) :
    PyOutcome DelResult × DB :=
  match ctx with
  | none => (.ret .missingUser, db)
  | some uid =>
    if uid == 0 then (.ret .missingUser, db)
    else if !(db.users.contains uid) then (.ret .userNotFound, db)
    else
      match delete_expenses_by_category db category uid with
      | (.ok msg, db2) => (.ret (.ok msg), db2)
      | (.error _, db2) => (.raised (.nameError "HTTPException"), db2)

/-- Nodes of the LangGraph state graph built at agent.py lines 549-569
(`END` is the terminal sentinel). -/
inductive Node
  | assistant
  | tools
  | summarize_conversation
  | END
deriving DecidableEq, Repr

/-- Embedding of `langgraph.prebuilt.tools_condition`: routes to the tool node exactly
when the assistant response carries at least one tool call. -/
def tools_condition (hasToolCalls : Bool) : Node :=
  if hasToolCalls then .tools else .END

/-- Embedding of `should_continue` (agent.py lines 528-545): summarize when
the retained message list holds more than 6 messages. -/
def should_continue (numMessages : Nat) : Node :=
  if 6 < numMessages then .summarize_conversation else .END

/-- The successor set of the `assistant` node.  The builder registers TWO
conditional edge sets on `assistant` — `tools_condition` (line 561) and
`should_continue` (line 567) — and LangGraph evaluates every registered
branch after the node runs and activates all returned targets, so both
routing functions contribute a successor. -/
def assistantNext (hasToolCalls : Bool) (numMessages : Nat) : List Node :=
  [tools_condition hasToolCalls, should_continue numMessages]

/-- A conversation message as the pruning logic sees it: its LangChain id
and its content. -/
structure Msg where
  id : Nat
  content : String
deriving DecidableEq, Repr

/-- Embedding of `summarize_conversation` (agent.py lines 496-525): it
returns the new summary — the response content of the model, overwriting the old
summary — together with the ids marked for removal, namely the ids of
`state["messages"][:-2]` (every message but the last two;
`List.take (n - 2)` agrees with the Python slice at every length). -/
def summarize_conversation (messages : List Msg) (summary : String)
    (responseContent : String) : String × List Nat :=
  -- `summary` only shapes the prompt sent to the model (extend vs create);
  -- the state written back never appends to it: it is plain `response.content`
  let _ := summary
  (responseContent, (messages.take (messages.length - 2)).map Msg.id)

/-- The `add_messages` reducer applied to a batch of `RemoveMessage`s: every
message whose id is listed is dropped from the retained history. -/
def applyRemovals (messages : List Msg) (ids : List Nat) : List Msg :=
  messages.filter (fun m => !(ids.contains m.id))

/-- The process-wide `contextvars` slot `current_user_id`
(agent.py line 39). -/
structure CtxState where
  current : Option Nat
deriving DecidableEq, Repr

/-- Semantics of `current_user_id.set(v)`: the returned token records the previous value. -/
def ctxSet (s : CtxState) (v : Nat) : CtxState × Option Nat :=
  (⟨some v⟩, s.current)

/-- Semantics of `current_user_id.reset(token)`: restores the value saved in the token. -/
def ctxReset (token : Option Nat) : CtxState :=
  ⟨token⟩

/-- Embedding of the identity handling in `query_agent`
(agent_router.py lines 54-62): set the slot to the id of the caller, run the
turn (which observes the slot and may return or raise), and restore the
slot in a `finally` block that runs on both outcomes. -/
def query_agent {α : Type} (s : CtxState) (uid : Nat)
    (invoke : CtxState → PyOutcome α) : PyOutcome α × CtxState :=
  let set := ctxSet s uid
  let out := invoke set.1
  (out, ctxReset set.2)

/-- Fixture: an expense of user 1 in category "Transit". -/
def expense1 : Expense := ⟨1, some 5, some "Bus ticket", "Transit", some 10, 1⟩

/-- Fixture: an expense of user 2 in category "Food". -/
def expense2 : Expense := ⟨2, some 9, some "Pizza", "Food", some 11, 2⟩

/-- Fixture store with two users owning one expense each. -/
def dbSample : DB := ⟨[expense1, expense2], [1, 2]⟩

/-- Fixture: an expense of user 1 whose stored category is lower-case
"travel". -/
def eTravel : Expense := ⟨1, some 20, some "Flight", "travel", some 5, 1⟩

/-- Fixture store holding only `eTravel`. -/
def dbTravel : DB := ⟨[eTravel], [1]⟩

/-- Fixture date parser recognising two date strings. -/
def parseSample : String → Option Int :=
  fun s => if s = "jan 1" then some 1 else if s = "jan 5" then some 5 else none

/-- Fixture: a seven-message retained history. -/
def msgs7 : List Msg :=
  [⟨1, "m1"⟩, ⟨2, "m2"⟩, ⟨3, "m3"⟩, ⟨4, "m4"⟩, ⟨5, "m5"⟩, ⟨6, "m6"⟩, ⟨7, "m7"⟩]

/-- Fixture turn body: returns the identity value it observes. -/
def sampleInvoke : CtxState → PyOutcome (Option Nat) :=
  fun s => .ret s.current

/-! Helper lemmas. -/

theorem listHasSub_nil (l : List Char) : listHasSub l [] = true := by
  cases l <;> simp [listHasSub, listStartsWith]

theorem containsCI_empty (s : String) : containsCI s "" = true := by
  have h : lowerStr "" = [] := rfl
  simp [containsCI, h, listHasSub_nil]

theorem isEmpty_false_of_ne {s : String} (h : s ≠ "") : s.isEmpty = false := by
  rw [Bool.eq_false_iff]
  intro hc
  exact h ((String.isEmpty_iff s).mp hc)

theorem applyRemovals_append (t d : List Msg)
    (hnd : ((t ++ d).map Msg.id).Nodup) :
    applyRemovals (t ++ d) (t.map Msg.id) = d := by
  rw [List.map_append] at hnd
  have hdisj := (List.nodup_append.mp hnd).2.2
  unfold applyRemovals
  rw [List.filter_append]
  have h1 : t.filter (fun m => !((t.map Msg.id).contains m.id)) = [] := by
    apply List.filter_eq_nil_iff.mpr
    intro m hm
    have hmem : m.id ∈ t.map Msg.id := List.mem_map_of_mem _ hm
    simp [hmem]
  have h2 : d.filter (fun m => !((t.map Msg.id).contains m.id)) = d := by
    apply List.filter_eq_self.mpr
    intro m hm
    have hnotmem : m.id ∉ t.map Msg.id := fun hin =>
      hdisj hin (List.mem_map_of_mem _ hm)
    simp [List.elem_iff, hnotmem]
  rw [h1, h2, List.nil_append]

theorem selByCategory_false_of_user {cat : String} {uid : Nat} {e : Expense}
    (h : e.user_id ≠ uid) : selByCategory cat uid e = false := by
  simp [selByCategory, h]

theorem applyUpdate_user_id (p : UpdatePayload) (e : Expense) :
    (applyUpdate p e).user_id = e.user_id := rfl

theorem update_by_cat_shape (db : DB) (cat : String) (p : UpdatePayload)
    (uid : Nat) :
    (update_expenses_by_category db cat p uid
       = (.error ⟨404, "No expenses found in category " ++ cat ++ "."⟩, db))
    ∨ (update_expenses_by_category db cat p uid
       = (.error ⟨500, "Failed to update expenses by category " ++ cat⟩, db))
    ∨ (update_expenses_by_category db cat p uid
       = (.ok ((db.expenses.filter (selByCategory cat uid)).map (applyUpdate p)),
          ⟨db.expenses.map
             (fun e => if selByCategory cat uid e then applyUpdate p e else e),
           db.users⟩)) := by
  simp only [update_expenses_by_category]
  split
  · left; rfl
  · split
    · right; right; rfl
    · right; left; rfl

theorem delete_by_cat_shape (db : DB) (cat : String) (uid : Nat) :
    (delete_expenses_by_category db cat uid
       = (.error ⟨404, "No expenses found in category " ++ cat ++ "."⟩, db))
    ∨ (delete_expenses_by_category db cat uid
       = (.ok ("Deleted "
             ++ toString (db.expenses.filter (selByCategory cat uid)).length
             ++ " expenses in category " ++ cat ++ "."),
          ⟨db.expenses.filter (fun e => !selByCategory cat uid e),
           db.users⟩)) := by
  simp only [delete_expenses_by_category]
  split
  · left; rfl
  · right; rfl

theorem update_by_cat_preserves_other_users {db : DB} {cat : String}
    {p : UpdatePayload} {uid : Nat} {res : Except HTTPError (List Expense)}
    {db2 : DB} (h : update_expenses_by_category db cat p uid = (res, db2)) :
    ∀ e ∈ db.expenses, e.user_id ≠ uid → e ∈ db2.expenses := by
  rcases update_by_cat_shape db cat p uid with hs | hs | hs <;>
    rw [hs] at h <;> (injection h with h1 h2; subst h2)
  · intro e he _; exact he
  · intro e he _; exact he
  · intro e he hu
    have hfix : (if selByCategory cat uid e then applyUpdate p e else e) = e := by
      rw [selByCategory_false_of_user hu]; simp
    exact hfix ▸ List.mem_map_of_mem _ he

theorem update_by_cat_ok_scoped {db : DB} {cat : String} {p : UpdatePayload}
    {uid : Nat} {exps : List Expense} {db2 : DB}
    (h : update_expenses_by_category db cat p uid = (.ok exps, db2)) :
    ∀ e ∈ exps, e.user_id = uid := by
  rcases update_by_cat_shape db cat p uid with hs | hs | hs <;> rw [hs] at h <;>
    injection h with h1 h2
  · exact absurd h1 (by simp)
  · exact absurd h1 (by simp)
  · injection h1 with h1
    subst h1
    intro e he
    obtain ⟨e0, he0, rfl⟩ := List.mem_map.mp he
    have hsel := (List.mem_filter.mp he0).2
    simp only [selByCategory, Bool.and_eq_true, beq_iff_eq] at hsel
    rw [applyUpdate_user_id]
    exact hsel.2

theorem delete_by_cat_preserves_other_users {db : DB} {cat : String}
    {uid : Nat} {res : Except HTTPError String} {db2 : DB}
    (h : delete_expenses_by_category db cat uid = (res, db2)) :
    ∀ e ∈ db.expenses, e.user_id ≠ uid → e ∈ db2.expenses := by
  rcases delete_by_cat_shape db cat uid with hs | hs <;>
    rw [hs] at h <;> (injection h with h1 h2; subst h2)
  · intro e he _; exact he
  · intro e he hu
    refine List.mem_filter.mpr ⟨he, ?_⟩
    rw [selByCategory_false_of_user hu]
    rfl

theorem tool_get_listing_inv {uid : Nat} {parse : String → Option Int}
    {category sd ed dk : Option String} {db : DB} {exps : List Expense}
    {total : Int}
    (h : tool_get_expenses (some uid) parse category sd ed dk db
           = .listing exps total) :
    exps = db.expenses.filter
      (queryKeep uid (pyTruthy category) (pyTruthy dk)
        ((pyTruthy sd).bind parse) ((pyTruthy ed).bind parse)) := by
  simp only [tool_get_expenses] at h
  split at h
  · exact GetResult.noConfusion h
  · split at h
    · exact GetResult.noConfusion h
    · split at h
      · exact GetResult.noConfusion h
      · split at h
        · exact GetResult.noConfusion h
        · split at h
          · exact GetResult.noConfusion h
          · split at h
            · exact GetResult.noConfusion h
            · split at h
              · injection h with h1 h2
                exact h1.symm
              · exact GetResult.noConfusion h

theorem queryKeep_cat_only (uid : Nat) (c : Option String) (e : Expense) :
    queryKeep uid c none none none e
      = ((e.user_id == uid)
         && (match c with
             | none => true
             | some c => containsCI e.category c)) := by
  simp [queryKeep]

/-! Theorems about the claims. -/

/-- C1: the Tool Layer contract is NOT total as claimed — the code has a
bug.  With user 1 present and no expenses at all, Bulk Delete on category
"Travel" reaches the 404 "No expenses found" `HTTPException` raised by the
controller; because `agent.py` never imports `HTTPException`, evaluating the
`except HTTPException` clause raises `NameError`, which escapes
`tool_delete_expenses` to its caller instead of a structured "not found"
result (the store is indeed left unchanged).  `tool_update_expenses` shows
the same escape on the same store. -/
theorem tool_delete_uncaught_name_error_on_empty_category :
    tool_delete_expenses (some 1) "Travel" ⟨[], [1]⟩
      = (.raised (.nameError "HTTPException"), ⟨[], [1]⟩)
    ∧ tool_update_expenses (some 1) (fun _ => none) "Travel" none (some 100) none
        ⟨[], [1]⟩
      = (.raised (.nameError "HTTPException"), ⟨[], [1]⟩) := by
  exact ⟨rfl, rfl⟩

/-- C2: Bulk Update with only the amount supplied does NOT leave the other
fields unchanged — the code has a bug.  The tool passes every keyword
explicitly to `ExpenseUpdate`, so `dict(exclude_unset=True)` keeps the
`None` values for description and date: the matched record has its
description and date overwritten with `None` (first conjunct), the commit
then violates the NOT NULL columns, the controller rolls the write back and
raises a 500 `HTTPException`, and the tool turns that into an uncaught
`NameError` (second conjunct). -/
theorem tool_update_clobbers_unsupplied_fields :
    applyUpdate ⟨some none, some (some 100), some "Travel", some none⟩
        ⟨1, some 20, some "Flight", "Travel", some 100, 1⟩
      = ⟨1, some 100, none, "Travel", none, 1⟩
    ∧ tool_update_expenses (some 1) (fun _ => none) "Travel" none (some 100) none
        ⟨[⟨1, some 20, some "Flight", "Travel", some 100, 1⟩], [1]⟩
      = (.raised (.nameError "HTTPException"),
         ⟨[⟨1, some 20, some "Flight", "Travel", some 100, 1⟩], [1]⟩) := by
  exact ⟨rfl, by decide⟩

/-- C4 counterexample: the claim says an Assistant response that requests
tool calls transitions only to `ToolDispatch` and never to `Summarize`; but
the builder registers two independent conditional edge sets on `assistant`,
so with tool calls requested and 7 retained messages the summarize node is
also activated. -/
theorem summarize_scheduled_despite_tool_calls :
    Node.summarize_conversation ∈ assistantNext true 7
    ∧ assistantNext true 7 ≠ [Node.tools] := by
  decide

/-- C4 amended: `Summarize` is entered exactly when the retained message
count exceeds 6 — regardless of whether the response requests tool calls —
and `ToolDispatch` is entered exactly when the response requests at least
one tool call; with tool calls and more than 6 messages both are entered. -/
theorem assistant_branch_characterization (hasToolCalls : Bool) (n : Nat) :
    (Node.summarize_conversation ∈ assistantNext hasToolCalls n ↔ 6 < n)
    ∧ (Node.tools ∈ assistantNext hasToolCalls n ↔ hasToolCalls = true) := by
  cases hasToolCalls <;> by_cases h : 6 < n <;>
    simp [assistantNext, tools_condition, should_continue, h]

/-- C4 amended witness: with no tool calls and 7 retained messages the
summarize node is entered and the tool node is not. -/
theorem assistant_branch_characterization_witness :
    (Node.summarize_conversation ∈ assistantNext false 7 ↔ 6 < 7)
    ∧ (Node.tools ∈ assistantNext false 7 ↔ false = true) :=
  assistant_branch_characterization false 7

/-- C5: the Identity Context slot is set to the id of the caller for the whole
turn (the turn body observes `some uid`) and is restored to its previous
value afterwards, whichever outcome — returned or raised — `invoke`
produces (the outcome is universally quantified); with no prior identity a
subsequent turn made without setting the slot observes `none`. -/
theorem identity_ctx_set_and_restored {α : Type} (s : CtxState) (uid : Nat)
    (invoke : CtxState → PyOutcome α) :
    (query_agent s uid invoke).1 = invoke ⟨some uid⟩
    ∧ (query_agent s uid invoke).2 = ⟨s.current⟩
    ∧ (query_agent ⟨none⟩ uid invoke).2.current = none := by
  exact ⟨rfl, rfl, rfl⟩

/-- C5 witness: with prior identity 9, a turn for caller 1 observes the
slot holding 1 and the slot holds 9 again afterwards; with no prior
identity the slot is empty afterwards. -/
theorem identity_ctx_set_and_restored_witness :
    (query_agent ⟨some 9⟩ 1 sampleInvoke).1 = sampleInvoke ⟨some 1⟩
    ∧ (query_agent ⟨some 9⟩ 1 sampleInvoke).2 = ⟨some 9⟩
    ∧ (query_agent ⟨none⟩ 1 sampleInvoke).2.current = none :=
  identity_ctx_set_and_restored ⟨some 9⟩ 1 sampleInvoke

/-- C6: with no identity in the context slot, every one of the four tool
operations immediately returns its structured "User ID is missing." failure
— the result is the same for every store `db` (so nothing is read) and the
store is returned unchanged (so nothing is modified), and no exception is
raised. -/
theorem tools_missing_identity_structured_failure
    (parse : String → Option Int) (category sd ed dk : Option String)
    (cat2 : String) (desc : Option String) (amt : Option Int)
    (date : Option String) (now : Int) (amount : Int) (db : DB) :
    tool_get_expenses none parse category sd ed dk db = .missingUser
    ∧ tool_create_expenses none now amount cat2 desc db = (.missingUser, db)
    ∧ tool_update_expenses none parse cat2 desc amt date db = (.ret .missingUser, db)
    ∧ tool_delete_expenses none cat2 db = (.ret .missingUser, db) := by
  exact ⟨rfl, rfl, rfl, rfl⟩

/-- C6 witness: the four structured missing-identity results at concrete
inputs on the fixture store. -/
theorem tools_missing_identity_structured_failure_witness :
    tool_get_expenses none parseSample none none none none dbSample
      = .missingUser
    ∧ tool_create_expenses none 100 50 "Travel" none dbSample
      = (.missingUser, dbSample)
    ∧ tool_update_expenses none parseSample "Travel" none none none dbSample
      = (.ret .missingUser, dbSample)
    ∧ tool_delete_expenses none "Travel" dbSample
      = (.ret .missingUser, dbSample) :=
  tools_missing_identity_structured_failure parseSample none none none none
    "Travel" none none none 100 50 dbSample

/-- C7: Query date validation.  An unparseable provided start bound (first
conjunct), an unparseable provided end bound with the start absent (second)
or parsed (third) each yield the descriptive parse-error result; two parsed
bounds with the start strictly after the end yield the start-after-end
validation result (fourth).  In every conjunct the store `db` is
universally quantified and the result is a constant in it, and
`tool_get_expenses` returns no store: no record is read or modified. -/
theorem query_date_validation (uid : Nat) (h0 : uid ≠ 0)
    (parse : String → Option Int) (cat dk : Option String) :
    (∀ s ed db, s ≠ "" → parse s = none →
       tool_get_expenses (some uid) parse cat (some s) ed dk db
         = .startParseError s)
    ∧ (∀ e db, e ≠ "" → parse e = none →
       tool_get_expenses (some uid) parse cat none (some e) dk db
         = .endParseError e)
    ∧ (∀ s e a db, s ≠ "" → e ≠ "" → parse s = some a → parse e = none →
       tool_get_expenses (some uid) parse cat (some s) (some e) dk db
         = .endParseError e)
    ∧ (∀ s e a b db, s ≠ "" → e ≠ "" → parse s = some a → parse e = some b →
       b < a →
       tool_get_expenses (some uid) parse cat (some s) (some e) dk db
         = .startAfterEnd) := by
  have hb : (uid == 0) = false := by simp [h0]
  refine ⟨?_, ?_, ?_, ?_⟩
  · intro s ed db hs hp
    have hse := isEmpty_false_of_ne hs
    simp [tool_get_expenses, pyTruthy, hb, hse, hp]
  · intro e db he hp
    have hee := isEmpty_false_of_ne he
    simp [tool_get_expenses, pyTruthy, hb, hee, hp]
  · intro s e a db hs he hps hpe
    have hse := isEmpty_false_of_ne hs
    have hee := isEmpty_false_of_ne he
    simp [tool_get_expenses, pyTruthy, hb, hse, hee, hps, hpe]
  · intro s e a b db hs he hps hpe hlt
    have hse := isEmpty_false_of_ne hs
    have hee := isEmpty_false_of_ne he
    simp [tool_get_expenses, pyTruthy, hb, hse, hee, hps, hpe, hlt]

/-- C7 witness: the validation results at concrete inputs — start "jan 5"
after end "jan 1" yields the validation error, and the unparseable start
"someday" yields the parse error. -/
theorem query_date_validation_witness :
    tool_get_expenses (some 1) parseSample none (some "jan 5") (some "jan 1")
        none dbSample = .startAfterEnd
    ∧ tool_get_expenses (some 1) parseSample none (some "someday") none
        none dbSample = .startParseError "someday" := by
  refine ⟨?_, ?_⟩
  · exact (query_date_validation 1 (by decide) parseSample none none).2.2.2
      "jan 5" "jan 1" 5 1 dbSample (by decide) (by decide) (by decide)
      (by decide) (by decide)
  · exact (query_date_validation 1 (by decide) parseSample none none).1
      "someday" none dbSample (by decide) (by decide)

/-- C8: on every history of at least two messages (with the LangChain
message ids distinct, as they are), a successful Summarize step overwrites
the summary with exactly the text returned by the model and tombstones all but
the final two messages, so applying the removals retains exactly the last
two pre-summary messages. -/
theorem summarize_overwrites_and_retains_last_two (messages : List Msg)
    (summary resp : String) (h2 : 2 ≤ messages.length)
    (hnd : (messages.map Msg.id).Nodup) :
    (summarize_conversation messages summary resp).1 = resp
    ∧ applyRemovals messages (summarize_conversation messages summary resp).2
        = messages.drop (messages.length - 2)
    ∧ (applyRemovals messages (summarize_conversation messages summary resp).2).length
        = 2 := by
  have h := applyRemovals_append (messages.take (messages.length - 2))
    (messages.drop (messages.length - 2))
    (by rw [List.take_append_drop]; exact hnd)
  rw [List.take_append_drop] at h
  refine ⟨rfl, h, ?_⟩
  rw [show (summarize_conversation messages summary resp).2
        = (messages.take (messages.length - 2)).map Msg.id from rfl]
  rw [h, List.length_drop]
  omega

/-- C3: user scoping of the Tool Layer.  For a caller with id `uid`: every
record returned by a Query with a category filter belongs to `uid` and its
category matches the filter under the case-insensitive (substring) matching
the Query applies; Create persists a record owned by `uid` and only appends
it; Bulk Update keeps every record of any other user in the store unchanged
and every record it returns belongs to `uid`; Bulk Delete keeps every
record of any other user in the store. -/
theorem tool_layer_user_scoping (uid : Nat) (parse : String → Option Int)
    (db : DB) :
    (∀ cat sd ed dk exps total,
       tool_get_expenses (some uid) parse (some cat) sd ed dk db
         = .listing exps total →
       ∀ e ∈ exps, e.user_id = uid ∧ containsCI e.category cat = true)
    ∧ (∀ now amount cat desc e db2,
       tool_create_expenses (some uid) now amount cat desc db = (.ok e, db2) →
       e.user_id = uid ∧ db2.expenses = db.expenses ++ [e])
    ∧ (∀ cat desc amt date res db2,
       tool_update_expenses (some uid) parse cat desc amt date db = (res, db2) →
       (∀ e ∈ db.expenses, e.user_id ≠ uid → e ∈ db2.expenses)
       ∧ ∀ exps, res = .ret (.ok exps) → ∀ e ∈ exps, e.user_id = uid)
    ∧ (∀ cat res db2,
       tool_delete_expenses (some uid) cat db = (res, db2) →
       ∀ e ∈ db.expenses, e.user_id ≠ uid → e ∈ db2.expenses) := by
  refine ⟨?_, ?_, ?_, ?_⟩
  · intro cat sd ed dk exps total h e he
    have hinv := tool_get_listing_inv h
    subst hinv
    have hk := (List.mem_filter.mp he).2
    simp only [queryKeep, Bool.and_eq_true, beq_iff_eq] at hk
    obtain ⟨⟨⟨hu, hcatm⟩, -⟩, -⟩ := hk
    refine ⟨hu, ?_⟩
    by_cases hc : cat = ""
    · subst hc
      exact containsCI_empty _
    · have hpt : pyTruthy (some cat) = some cat := by
        simp [pyTruthy, isEmpty_false_of_ne hc]
      rw [hpt] at hcatm
      simpa using hcatm
  · intro now amount cat desc e db2 h
    simp only [tool_create_expenses] at h
    split at h
    · simp at h
    · split at h
      · simp at h
      · rw [Prod.mk.injEq] at h
        obtain ⟨h1, h2⟩ := h
        injection h1 with h1
        subst h1
        subst h2
        exact ⟨rfl, rfl⟩
  · intro cat desc amt date res db2 h
    simp only [tool_update_expenses] at h
    split at h
    · rw [Prod.mk.injEq] at h
      obtain ⟨h1, h2⟩ := h
      subst h1
      subst h2
      refine ⟨fun e he _ => he, ?_⟩
      intro exps hres
      simp at hres
    · split at h
      · -- date argument absent (or empty): run with no parsed date
        split at h
        · rw [Prod.mk.injEq] at h
          obtain ⟨h1, h2⟩ := h
          subst h1
          subst h2
          refine ⟨fun e he _ => he, ?_⟩
          intro exps hres
          simp at hres
        · split at h
          case _ exps0 db2' heq =>
            rw [Prod.mk.injEq] at h
            obtain ⟨h1, h2⟩ := h
            subst h1
            subst h2
            refine ⟨update_by_cat_preserves_other_users heq, ?_⟩
            intro exps hres
            injection hres with hres
            injection hres with hres
            subst hres
            exact update_by_cat_ok_scoped heq
          case _ err db2' heq =>
            rw [Prod.mk.injEq] at h
            obtain ⟨h1, h2⟩ := h
            subst h1
            subst h2
            refine ⟨update_by_cat_preserves_other_users heq, ?_⟩
            intro exps hres
            simp at hres
      · -- date argument provided: parse result branches
        split at h
        · rw [Prod.mk.injEq] at h
          obtain ⟨h1, h2⟩ := h
          subst h1
          subst h2
          refine ⟨fun e he _ => he, ?_⟩
          intro exps hres
          simp at hres
        · split at h
          · rw [Prod.mk.injEq] at h
            obtain ⟨h1, h2⟩ := h
            subst h1
            subst h2
            refine ⟨fun e he _ => he, ?_⟩
            intro exps hres
            simp at hres
          · split at h
            case _ exps0 db2' heq =>
              rw [Prod.mk.injEq] at h
              obtain ⟨h1, h2⟩ := h
              subst h1
              subst h2
              refine ⟨update_by_cat_preserves_other_users heq, ?_⟩
              intro exps hres
              injection hres with hres
              injection hres with hres
              subst hres
              exact update_by_cat_ok_scoped heq
            case _ err db2' heq =>
              rw [Prod.mk.injEq] at h
              obtain ⟨h1, h2⟩ := h
              subst h1
              subst h2
              refine ⟨update_by_cat_preserves_other_users heq, ?_⟩
              intro exps hres
              simp at hres
  · intro cat res db2 h
    simp only [tool_delete_expenses] at h
    split at h
    · rw [Prod.mk.injEq] at h
      obtain ⟨h1, h2⟩ := h
      subst h2
      exact fun e he _ => he
    · split at h
      · rw [Prod.mk.injEq] at h
        obtain ⟨h1, h2⟩ := h
        subst h2
        exact fun e he _ => he
      · split at h
        case _ msg db2' heq =>
          rw [Prod.mk.injEq] at h
          obtain ⟨h1, h2⟩ := h
          subst h2
          exact delete_by_cat_preserves_other_users heq
        case _ err db2' heq =>
          rw [Prod.mk.injEq] at h
          obtain ⟨h1, h2⟩ := h
          subst h2
          exact delete_by_cat_preserves_other_users heq

/-- C3 witness: on the two-user fixture store, the record returned by the
category query "Transit" for caller 1 is owned by user 1 and matches the
filter case-insensitively. -/
theorem tool_layer_user_scoping_witness :
    expense1.user_id = 1 ∧ containsCI expense1.category "Transit" = true :=
  (tool_layer_user_scoping 1 parseSample dbSample).1 "Transit" none none none
    [expense1] 5 (by decide) expense1 (by decide)

/-- C9: Create followed by Query round-trips.  For a user `U` (nonzero and
present in the store) with no other record matching category "Food"
case-insensitively, creating an expense of amount 50, category "Food",
description "Groceries" stamps the timestamp `now`, persists it scoped to
`U` (first conjunct), and a subsequent Query by category "Food" returns
exactly that record with a total of 50 (rendered `Total: $50.00` by the
listing formatter). -/
theorem create_then_query_roundtrip (db : DB) (U : Nat) (now : Int)
    (parse : String → Option Int) (hU0 : U ≠ 0)
    (hUin : db.users.contains U = true)
    (hnone : ∀ e ∈ db.expenses,
      ¬(e.user_id = U ∧ containsCI e.category "Food" = true)) :
    tool_create_expenses (some U) now 50 "Food" (some "Groceries") db
      = (.ok ⟨nextId db, some 50, some "Groceries", "Food", some now, U⟩,
         ⟨db.expenses
            ++ [⟨nextId db, some 50, some "Groceries", "Food", some now, U⟩],
          db.users⟩)
    ∧ tool_get_expenses (some U) parse (some "Food") none none none
        ⟨db.expenses
           ++ [⟨nextId db, some 50, some "Groceries", "Food", some now, U⟩],
         db.users⟩
      = .listing [⟨nextId db, some 50, some "Groceries", "Food", some now, U⟩]
          50 := by
  have hb : (U == 0) = false := by simp [hU0]
  have hpt : pyTruthy (some "Food") = some "Food" := by decide
  constructor
  · simp [tool_create_expenses, hb]
  · have hold : db.expenses.filter
        (queryKeep U (some "Food") none none none) = [] := by
      apply List.filter_eq_nil_iff.mpr
      intro e he
      rw [queryKeep_cat_only]
      simp only [Bool.and_eq_true, beq_iff_eq]
      rintro ⟨hu, hc⟩
      exact hnone e he ⟨hu, hc⟩
    have hnew : queryKeep U (some "Food") none none none
        ⟨nextId db, some 50, some "Groceries", "Food", some now, U⟩ = true := by
      rw [queryKeep_cat_only]
      have hcc : containsCI "Food" "Food" = true := by decide
      simp [hcc]
    simp only [tool_get_expenses, hb, hpt, Bool.false_eq_true, if_false]
    rw [show pyTruthy none = none from rfl]
    simp only [Option.isSome_none, Bool.false_and, if_false, Option.none_bind]
    rw [List.filter_append, hold, List.nil_append]
    simp only [hUin, Bool.not_true, Bool.false_eq_true, if_false]
    rw [List.filter_cons_of_pos hnew]
    rfl

/-- C9 witness: the round trip at the concrete two-user fixture store. -/
theorem create_then_query_roundtrip_witness :
    tool_create_expenses (some 1) 100 50 "Food" (some "Groceries") dbSample
      = (.ok ⟨nextId dbSample, some 50, some "Groceries", "Food", some 100, 1⟩,
         ⟨dbSample.expenses
            ++ [⟨nextId dbSample, some 50, some "Groceries", "Food", some 100, 1⟩],
          dbSample.users⟩)
    ∧ tool_get_expenses (some 1) parseSample (some "Food") none none none
        ⟨dbSample.expenses
           ++ [⟨nextId dbSample, some 50, some "Groceries", "Food", some 100, 1⟩],
         dbSample.users⟩
      = .listing
          [⟨nextId dbSample, some 50, some "Groceries", "Food", some 100, 1⟩]
          50 :=
  create_then_query_roundtrip dbSample 1 100 parseSample (by decide) (by decide)
    (by decide)

/-- C10: Bulk Update and Bulk Delete select rows by exact, case-sensitive
category equality while Query matches case-insensitively by substring: when
no record of the caller has a category exactly equal to the selector, both
controllers return the 404 "No expenses found" error and leave the store
unchanged, while any record of the caller whose category matches the
selector case-insensitively as a substring is still returned by Query. -/
theorem bulk_selector_exact_vs_query_substring (db : DB) (uid : Nat)
    (cat : String) (p : UpdatePayload)
    (hnomatch : ∀ e ∈ db.expenses, e.user_id = uid → e.category ≠ cat) :
    update_expenses_by_category db cat p uid
      = (.error ⟨404, "No expenses found in category " ++ cat ++ "."⟩, db)
    ∧ delete_expenses_by_category db cat uid
      = (.error ⟨404, "No expenses found in category " ++ cat ++ "."⟩, db)
    ∧ ∀ parse e, e ∈ db.expenses → e.user_id = uid →
       containsCI e.category cat = true →
       ∀ exps total,
         tool_get_expenses (some uid) parse (some cat) none none none db
           = .listing exps total →
         e ∈ exps := by
  have hfil : db.expenses.filter (selByCategory cat uid) = [] := by
    apply List.filter_eq_nil_iff.mpr
    intro e he
    simp only [selByCategory, Bool.and_eq_true, beq_iff_eq]
    rintro ⟨hc, hu⟩
    exact hnomatch e he hu hc
  refine ⟨?_, ?_, ?_⟩
  · simp [update_expenses_by_category, hfil]
  · simp [delete_expenses_by_category, hfil]
  · intro parse e he hu hci exps total hq
    have hinv := tool_get_listing_inv hq
    subst hinv
    refine List.mem_filter.mpr ⟨he, ?_⟩
    rw [show pyTruthy none = none from rfl, Option.none_bind,
      queryKeep_cat_only]
    by_cases hc : cat = ""
    · subst hc
      rw [show pyTruthy (some "") = none from by decide]
      simp [hu]
    · have hpt : pyTruthy (some cat) = some cat := by
        simp [pyTruthy, isEmpty_false_of_ne hc]
      rw [hpt]
      simp [hu, hci]

/-- C10 witness: stored category "travel" versus selector "Travel": both
bulk controllers answer 404 and change nothing while Query returns the
record. -/
theorem bulk_selector_exact_vs_query_substring_witness :
    update_expenses_by_category dbTravel "Travel" ⟨none, none, none, none⟩ 1
      = (.error ⟨404, "No expenses found in category " ++ "Travel" ++ "."⟩,
         dbTravel)
    ∧ delete_expenses_by_category dbTravel "Travel" 1
      = (.error ⟨404, "No expenses found in category " ++ "Travel" ++ "."⟩,
         dbTravel)
    ∧ eTravel ∈ [eTravel] := by
  have h := bulk_selector_exact_vs_query_substring dbTravel 1 "Travel"
    ⟨none, none, none, none⟩ (by decide)
  exact ⟨h.1, h.2.1,
    h.2.2 parseSample eTravel (by decide) (by decide) (by decide)
      [eTravel] 20 (by decide)⟩

/-- C8 witness: on a concrete seven-message history the summary becomes the
text of the model and exactly the messages with ids 6 and 7 survive
pruning. -/
theorem summarize_overwrites_and_retains_last_two_witness :
    (summarize_conversation msgs7 "old summary" "new summary").1 = "new summary"
    ∧ applyRemovals msgs7 (summarize_conversation msgs7 "old summary" "new summary").2
        = msgs7.drop (msgs7.length - 2)
    ∧ (applyRemovals msgs7
        (summarize_conversation msgs7 "old summary" "new summary").2).length = 2 :=
  summarize_overwrites_and_retains_last_two msgs7 "old summary" "new summary"
    (by decide) (by decide)

end ExpenseAgent
